import Mathlib

/-!
Verification of the LIBERO BDDL base domain (`libero/libero/envs/bddl_base_domain.py`).

The development shallowly embeds the reward-shaping engine
(`reward`, `_compute_dense_reward`, `_get_predicate_progress`), the
placement planner (`_add_placement_initializer`) and the reset procedure
(`_reset_internal`) of class `BDDLBaseDomain`.  Python floats are modelled
as real numbers, Python exceptions as `Except String`, and the external
collaborators (the predicate evaluator `eval_predicate_fn`, the mujoco
object-state accessors and the robosuite samplers) as parameters carried
by a `Scene` record or passed as functions.
-/

namespace Libero

/-- Python `x.lower()` restricted to the ASCII identifiers used by the
predicate names: lower-case every character. -/
def pyLower (s : String) : String := ⟨s.data.map Char.toLower⟩

/-- Python `min(l)` over a non-empty list; `min` of an empty sequence
raises `ValueError`. -/
def pyMin (l : List ℝ) : Except String ℝ :=
  match l with
  | [] => .error "ValueError: min() arg is an empty sequence"
  | x :: xs => .ok (xs.foldl min x)

/-- Python `max(l)` over a non-empty list; `max` of an empty sequence
raises `ValueError`. -/
def pyMax (l : List ℝ) : Except String ℝ :=
  match l with
  | [] => .error "ValueError: max() arg is an empty sequence"
  | x :: xs => .ok (xs.foldl max x)

/-- `max(distances) if distances else default` (line 215 of
`bddl_base_domain.py`). -/
def pyMaxD (l : List ℝ) (dflt : ℝ) : ℝ :=
  match l with
  | [] => dflt
  | x :: xs => xs.foldl max x

/-- `np.clip(x, lo, hi)`. -/
noncomputable def pyClip (x lo hi : ℝ) : ℝ := min hi (max lo x)

/-- The view the reward code has of one entry of `object_states_dict`:
whether the entry is an instance of class `ObjectState` (as opposed to
`SiteObjectState`), the body position returned by
`get_geom_state()["pos"]`, and the joint positions returned by
`get_joint_state()`. -/
structure ObjState where
  isObjectState : Bool
  pos : ℝ × ℝ × ℝ
  joints : List ℝ

/-- The `object_properties["articulation"]` table of an articulated
object.  Each range table is `none` when the corresponding
`default_*_ranges` key is absent. -/
structure ArticulationProps where
  openRanges : Option (List ℝ)
  closeRanges : Option (List ℝ)
  turnonRanges : Option (List ℝ)
  turnoffRanges : Option (List ℝ)

/-- The live scene as consumed by `_get_predicate_progress`:
`object_states_dict` lookup, the `isinstance(get_object(name),
ArticulatedObject)` test, the articulation properties of
`get_object(name)`, and the external predicate evaluator
`eval_predicate_fn` at arities 2 and 1. -/
structure Scene where
  objectStates : String → ObjState
  isArticulated : String → Bool
  artProps : String → Option ArticulationProps
  evalPred2 : String → ObjState → ObjState → Bool
  evalPred1 : String → ObjState → Bool

/-- `((pos1[0]-pos2[0])**2 + (pos1[1]-pos2[1])**2)**0.5` (line 271). -/
noncomputable def horizontalDist (p1 p2 : ℝ × ℝ × ℝ) : ℝ :=
  Real.sqrt ((p1.1 - p2.1) ^ 2 + (p1.2.1 - p2.2.1) ^ 2)

/-- `((pos1[0]-pos2[0])**2 + (pos1[1]-pos2[1])**2 + (pos1[2]-pos2[2])**2)**0.5`
(line 286). -/
noncomputable def euclideanDist (p1 p2 : ℝ × ℝ × ℝ) : ℝ :=
  Real.sqrt
    ((p1.1 - p2.1) ^ 2 + (p1.2.1 - p2.2.1) ^ 2 + (p1.2.2 - p2.2.2) ^ 2)

/-- Lines 347-365 (and the identical lines 405-421): the two-case
joint-range progress formula shared by `open`/`close` and
`turnon`/`turnoff`, followed by `np.clip(current_progress, 0.0, 1.0)`. -/
noncomputable def openCloseFormula
    (qCurr qTargetMin qTargetMax qOppMin qOppMax : ℝ) : ℝ :=
  let currentProgress : ℝ :=
    if qTargetMax < qOppMin then
      -- Case 1: target achieved by qpos decreasing.
      let denominator := qOppMax - qTargetMax
      if denominator > 1 / 1000000 then (qOppMax - qCurr) / denominator else 0
    else if qTargetMin > qOppMax then
      -- Case 2: target achieved by qpos increasing.
      let denominator := qTargetMin - qOppMax
      if denominator > 1 / 1000000 then (qCurr - qOppMax) / denominator else 0
    else 0
  pyClip currentProgress 0 1

/-- Lines 335-345 together with the shared formula: the `default_*_ranges`
key checks (`none` = key absent, worth progress 0), then
`min`/`max` over each range table, then the two-case formula. -/
noncomputable def jointRangesProgress (qCurr : ℝ)
    (targetRanges? oppositeRanges? : Option (List ℝ)) : Except String ℝ :=
  match targetRanges?, oppositeRanges? with
  | some targetRanges, some oppositeRanges => do
    let qTargetMinVal ← pyMin targetRanges
    let qTargetMaxVal ← pyMax targetRanges
    let qOppMinVal ← pyMin oppositeRanges
    let qOppMaxVal ← pyMax oppositeRanges
    .ok (openCloseFormula qCurr qTargetMinVal qTargetMaxVal
      qOppMinVal qOppMaxVal)
  | _, _ => .ok 0

/-- `_get_predicate_progress` (lines 240-427).  A state is the parsed
predicate expression `[predicate_name, arg1, (arg2)]`; unsupported
predicates or arities raise `NotImplementedError`. -/
noncomputable def getPredicateProgress (scene : Scene) (state : List String) :
    Except String ℝ :=
  match state with
  | [predicateFnName, object1Name, object2Name] =>
    let obj1 := scene.objectStates object1Name
    let obj2 := scene.objectStates object2Name
    if scene.evalPred2 predicateFnName obj1 obj2 then .ok 1
    else if pyLower predicateFnName = "on" then
      -- max(0.0, 1.0 - horizontal_dist / max_horizontal_dist), max dist 1.0m
      .ok (max 0 (1 - horizontalDist obj1.pos obj2.pos / 1))
    else if pyLower predicateFnName = "in" then
      .ok (max 0 (1 - euclideanDist obj1.pos obj2.pos / 1))
    else
      .error ("NotImplementedError: reward shaping for predicate "
        ++ predicateFnName)
  | [predicateFnNameOrigCase, objectName] =>
    let predicateFnNameLower := pyLower predicateFnNameOrigCase
    let objState := scene.objectStates objectName
    if scene.evalPred1 predicateFnNameOrigCase objState then .ok 1
    else if predicateFnNameLower = "open" ∨ predicateFnNameLower = "close" then
      if ¬(objState.isObjectState = true) ∨
          ¬(scene.isArticulated objectName = true) then .ok 0
      else
        match objState.joints with
        | [] => .ok 0
        | qCurr :: _ =>
          match scene.artProps objectName with
          | none => .ok 0
          | some artProps =>
            jointRangesProgress qCurr
              (if predicateFnNameLower = "open" then artProps.openRanges
                else artProps.closeRanges)
              (if predicateFnNameLower = "open" then artProps.closeRanges
                else artProps.openRanges)
    else if predicateFnNameLower = "turnon" ∨
        predicateFnNameLower = "turnoff" then
      if ¬(objState.isObjectState = true) ∨
          ¬(scene.isArticulated objectName = true) then .ok 0
      else
        match objState.joints with
        | [] => .ok 0
        | qCurr :: _ =>
          match scene.artProps objectName with
          | none => .ok 0
          | some artProps =>
            jointRangesProgress qCurr
              (if predicateFnNameLower = "turnon" then artProps.turnonRanges
                else artProps.turnoffRanges)
              (if predicateFnNameLower = "turnon" then artProps.turnoffRanges
                else artProps.turnonRanges)
    else
      .error ("NotImplementedError: reward shaping for unary predicate "
        ++ predicateFnNameLower)
  | _ => .error "NotImplementedError: reward shaping for this arity"

/-- The way `_get_predicate_progress` invokes the external evaluator
`eval_predicate_fn` on an atom (lines 261 and 304). -/
def evalAtom (scene : Scene) (state : List String) : Bool :=
  match state with
  | [p, a, b] => scene.evalPred2 p (scene.objectStates a) (scene.objectStates b)
  | [p, a] => scene.evalPred1 p (scene.objectStates a)
  | _ => false

/-- The loop of lines 207-211: one distance `1.0 - progress` per goal
condition, in declaration order. -/
noncomputable def goalDistances (scene : Scene) :
    List (List String) → Except String (List ℝ)
  | [] => .ok []
  | s :: rest => do
    let progress ← getPredicateProgress scene s
    let ds ← goalDistances scene rest
    .ok ((1 - progress) :: ds)

/-- Lines 205-215: the bottleneck distance
`max(distances) if distances else 1.0`. -/
noncomputable def currentGoalDistance (scene : Scene)
    (goalState : List (List String)) : Except String ℝ := do
  let distances ← goalDistances scene goalState
  .ok (pyMaxD distances 1)

/-- `reward *= self.reward_scale / 1.0` guarded by
`if self.reward_scale is not None` — this exact pair of lines appears
both at lines 230-231 (inside `_compute_dense_reward`) and at lines
184-185 (inside `reward`). -/
noncomputable def scaleReward (rewardScale : Option ℝ) (reward : ℝ) : ℝ :=
  match rewardScale with
  | some s => reward * (s / 1)
  | none => reward

/-- `_compute_dense_reward` (lines 189-238).  The mutable attribute
`self.previous_distance` is threaded explicitly as an `Option ℝ`
(`none` = attribute unset).  Returns the reward value and the new
attribute state. -/
noncomputable def computeDenseReward (goalState : List (List String))
    (scene : Scene) (rewardScale : Option ℝ) (previousDistance : Option ℝ) :
    Except String (ℝ × Option ℝ) :=
  match goalState with
  | [] => .ok (0, previousDistance)
  | _ => do
    let currentDistance ← currentGoalDistance scene goalState
    match previousDistance with
    | none =>
      -- first call: initialize the attribute and return 0.0 (lines 217-220)
      .ok (0, some currentDistance)
    | some previous =>
      let distanceDiff := previous - currentDistance
      let reward := distanceDiff
      -- `self.previous_distance = current_distance` (line 227)
      let reward := scaleReward rewardScale reward
      let reward := pyClip reward 0 1
      let reward := if |reward| < 1 / 1000 then 0 else reward
      .ok (reward, some currentDistance)

/-- `reward` (lines 167-187): sparse success reward, else dense shaping
if enabled, then the final scaling.  The result of `_check_success` is
passed in as `success`. -/
noncomputable def rewardFn (success rewardShaping : Bool)
    (rewardScale : Option ℝ) (goalState : List (List String)) (scene : Scene)
    (previousDistance : Option ℝ) : Except String (ℝ × Option ℝ) := do
  let (reward, st) ←
    if success then .ok ((1 : ℝ), previousDistance)
    else if rewardShaping then
      computeDenseReward goalState scene rewardScale previousDistance
    else .ok ((0 : ℝ), previousDistance)
  .ok (scaleReward rewardScale reward, st)

/-- Lines 976-977 of `_reset_internal`:
`if hasattr(self, 'previous_distance'): delattr(self, 'previous_distance')`.
Afterwards the attribute is unset in either case. -/
def resetPreviousDistance (previousDistance : Option ℝ) : Option ℝ :=
  match previousDistance with
  | some _ => none
  | none => none

/-! ### Helper lemmas about the numeric primitives -/

theorem pyClip_unit (x : ℝ) : 0 ≤ pyClip x 0 1 ∧ pyClip x 0 1 ≤ 1 :=
  ⟨le_min zero_le_one (le_max_left 0 x), min_le_left 1 _⟩

theorem pyClip_mono {a b : ℝ} (h : a ≤ b) : pyClip a 0 1 ≤ pyClip b 0 1 :=
  min_le_min le_rfl (max_le_max le_rfl h)

theorem openCloseFormula_unit (q a b c d : ℝ) :
    0 ≤ openCloseFormula q a b c d ∧ openCloseFormula q a b c d ≤ 1 :=
  pyClip_unit _

theorem foldl_min_le_init (x : ℝ) (xs : List ℝ) : xs.foldl min x ≤ x := by
  induction xs generalizing x with
  | nil => exact le_rfl
  | cons y ys ih => exact (ih (min x y)).trans (min_le_left x y)

theorem init_le_foldl_max (x : ℝ) (xs : List ℝ) : x ≤ xs.foldl max x := by
  induction xs generalizing x with
  | nil => exact le_rfl
  | cons y ys ih => exact (le_max_left x y).trans (ih (max x y))

theorem pyMin_le_pyMax {l : List ℝ} {a b : ℝ}
    (ha : pyMin l = .ok a) (hb : pyMax l = .ok b) : a ≤ b := by
  cases l with
  | nil => simp [pyMin] at ha
  | cons x xs =>
    simp only [pyMin, pyMax, Except.ok.injEq] at ha hb
    exact ha ▸ hb ▸ (foldl_min_le_init x xs).trans (init_le_foldl_max x xs)

theorem scaleReward_zero (scale : Option ℝ) : scaleReward scale 0 = 0 := by
  cases scale <;> simp [scaleReward]

/-- Whenever the range-table tail of the `open`/`close` and
`turnon`/`turnoff` branches succeeds, its value lies in `[0, 1]`. -/
theorem jointRangesProgress_unit {q p : ℝ} {t? o? : Option (List ℝ)}
    (h : jointRangesProgress q t? o? = .ok p) : 0 ≤ p ∧ p ≤ 1 := by
  rcases t? with _ | t <;> rcases o? with _ | o <;>
    simp only [jointRangesProgress, Except.ok.injEq] at h
  · exact h ▸ ⟨le_rfl, zero_le_one⟩
  · exact h ▸ ⟨le_rfl, zero_le_one⟩
  · exact h ▸ ⟨le_rfl, zero_le_one⟩
  · rcases t with _ | ⟨x, xs⟩ <;> rcases o with _ | ⟨y, ys⟩ <;>
      simp only [pyMin, pyMax, bind, Except.bind, Except.ok.injEq] at h
    · exact absurd h (by simp)
    · exact absurd h (by simp)
    · exact absurd h (by simp)
    · exact h ▸ openCloseFormula_unit _ _ _ _ _

/-! ### Concrete scenes used to instantiate the theorems -/

/-- A scene whose external predicate evaluator reports every atom as
already satisfied. -/
def STrue : Scene :=
  { objectStates := fun _ => ⟨true, (0, 0, 0), []⟩
    isArticulated := fun _ => false
    artProps := fun _ => none
    evalPred2 := fun _ _ _ => true
    evalPred1 := fun _ _ => true }

/-! ### Claim theorems about the progress estimator -/

/-- Claim C3: whenever the external predicate evaluator reports a
predicate atom of arity 1 or 2 as satisfied, `_get_predicate_progress`
returns exactly 1.0. -/
theorem progress_shortcircuit_on_satisfied (scene : Scene)
    (state : List String) (harity : state.length = 3 ∨ state.length = 2)
    (heval : evalAtom scene state = true) :
    getPredicateProgress scene state = .ok 1 := by
  rcases state with _ | ⟨p, _ | ⟨a, _ | ⟨b, _ | ⟨c, rest⟩⟩⟩⟩
  · simp at harity
  · simp at harity
  · simp only [evalAtom] at heval
    simp [getPredicateProgress, heval]
  · simp only [evalAtom] at heval
    simp [getPredicateProgress, heval]
  · simp at harity

/-- Concrete instantiation of C3's theorem: a satisfied unary atom. -/
theorem progress_shortcircuit_on_satisfied_witness :
    evalAtom STrue ["open", "microwave"] = true ∧
    getPredicateProgress STrue ["open", "microwave"] = .ok 1 :=
  ⟨rfl, progress_shortcircuit_on_satisfied STrue ["open", "microwave"]
    (Or.inr rfl) rfl⟩

/-- Claim C4: for every supported predicate atom and object state the
value returned by `_get_predicate_progress` lies in `[0, 1]`. -/
theorem progress_in_unit_interval (scene : Scene) (state : List String)
    (p : ℝ) (h : getPredicateProgress scene state = .ok p) :
    0 ≤ p ∧ p ≤ 1 := by
  rcases state with _ | ⟨q, _ | ⟨a, _ | ⟨b, _ | ⟨c, rest⟩⟩⟩⟩
  · simp [getPredicateProgress] at h
  · simp [getPredicateProgress] at h
  -- unary atom [q, a]
  · simp only [getPredicateProgress] at h
    split_ifs at h with h1 h2 h3 h4 h5 <;>
    first
    | (simp only [Except.ok.injEq] at h; subst h; norm_num)
    | (rcases hj : (scene.objectStates a).joints with _ | ⟨qc, qs⟩ <;>
        rw [hj] at h <;> dsimp only at h
       · simp only [Except.ok.injEq] at h; subst h; norm_num
       · rcases hap : scene.artProps a with _ | ap <;>
           rw [hap] at h <;> dsimp only at h
         · simp only [Except.ok.injEq] at h; subst h; norm_num
         · exact jointRangesProgress_unit h)
  -- binary atom [q, a, b]
  · simp only [getPredicateProgress] at h
    split_ifs at h with h1 h2 h3
    · simp only [Except.ok.injEq] at h; subst h; norm_num
    · simp only [Except.ok.injEq] at h
      subst h
      have hd : 0 ≤ horizontalDist (scene.objectStates a).pos
          (scene.objectStates b).pos := Real.sqrt_nonneg _
      exact ⟨le_max_left _ _, max_le zero_le_one (by linarith)⟩
    · simp only [Except.ok.injEq] at h
      subst h
      have hd : 0 ≤ euclideanDist (scene.objectStates a).pos
          (scene.objectStates b).pos := Real.sqrt_nonneg _
      exact ⟨le_max_left _ _, max_le zero_le_one (by linarith)⟩
  · simp [getPredicateProgress] at h

/-- Concrete instantiation of C4's theorem: a satisfied binary atom. -/
theorem progress_in_unit_interval_witness :
    getPredicateProgress STrue ["on", "cube", "plate"] = .ok 1 ∧
    (0 ≤ (1 : ℝ) ∧ (1 : ℝ) ≤ 1) :=
  ⟨rfl, progress_in_unit_interval STrue ["on", "cube", "plate"] 1 rfl⟩

/-! ### Claim theorems about the temporal-difference dense reward -/

/-- Claim C5: the reset clears the previous-distance state, and the first
dense-reward computation afterwards returns exactly 0.0 (whatever the
goal satisfaction state is), initializing the stored distance to the
current goal distance. -/
theorem reset_clears_and_first_call_returns_zero :
    (∀ st, resetPreviousDistance st = none) ∧
    ∀ goalState scene scale r st',
      computeDenseReward goalState scene scale none = .ok (r, st') →
      r = 0 ∧ (goalState ≠ [] →
        ∃ c, currentGoalDistance scene goalState = .ok c ∧ st' = some c) := by
  constructor
  · intro st; cases st <;> rfl
  · intro goalState scene scale r st' h
    cases goalState with
    | nil =>
      simp only [computeDenseReward, Except.ok.injEq, Prod.mk.injEq] at h
      exact ⟨h.1.symm, fun hne => absurd rfl hne⟩
    | cons g gs =>
      simp only [computeDenseReward] at h
      cases hc : currentGoalDistance scene (g :: gs) with
      | error e => rw [hc] at h; simp [bind, Except.bind] at h
      | ok c =>
        rw [hc] at h
        simp only [bind, Except.bind, Except.ok.injEq, Prod.mk.injEq] at h
        exact ⟨h.1.symm, fun _ => ⟨c, rfl, h.2.symm⟩⟩

/-- Concrete instantiation of C5's theorem. -/
theorem reset_clears_and_first_call_returns_zero_witness :
    resetPreviousDistance (some 5) = none ∧
    computeDenseReward [["on", "a", "b"]] STrue none none = .ok (0, some 0) ∧
    (0 : ℝ) = 0 := by
  have h : computeDenseReward [["on", "a", "b"]] STrue none none
      = .ok (0, some 0) := by
    simp [computeDenseReward, currentGoalDistance, goalDistances,
      getPredicateProgress, STrue, pyMaxD, bind, Except.bind]
  exact ⟨reset_clears_and_first_call_returns_zero.1 (some 5), h,
    (reset_clears_and_first_call_returns_zero.2 _ _ _ _ _ h).1⟩

/-- Claim C6: with a non-empty goal list and an unchanged scene, a second
dense-reward computation right after a first one returns exactly 0.0. -/
theorem dense_reward_idempotent_second_call
    (goalState : List (List String)) (scene : Scene) (scale : Option ℝ)
    (st : Option ℝ) (v1 : ℝ) (st1 : Option ℝ) (hne : goalState ≠ [])
    (h1 : computeDenseReward goalState scene scale st = .ok (v1, st1)) :
    computeDenseReward goalState scene scale st1 = .ok (0, st1) := by
  cases goalState with
  | nil => exact absurd rfl hne
  | cons g gs =>
    simp only [computeDenseReward] at h1 ⊢
    cases hc : currentGoalDistance scene (g :: gs) with
    | error e => rw [hc] at h1; simp [bind, Except.bind] at h1
    | ok c =>
      rw [hc] at h1
      simp only [bind, Except.bind] at h1 ⊢
      have hst1 : st1 = some c := by
        cases st with
        | none => simpa using (Prod.mk.injEq _ _ _ _ ▸
            (Except.ok.injEq _ _).mp h1).2.symm
        | some prev => simpa using (Prod.mk.injEq _ _ _ _ ▸
            (Except.ok.injEq _ _).mp h1).2.symm
      subst hst1
      dsimp only
      rw [sub_self, scaleReward_zero]
      have hclip : pyClip 0 0 1 = 0 := by simp [pyClip]
      rw [hclip]
      simp

/-- Concrete instantiation of C6's theorem. -/
theorem dense_reward_idempotent_second_call_witness :
    ([["on", "a", "b"]] ≠ ([] : List (List String))) ∧
    computeDenseReward [["on", "a", "b"]] STrue none none = .ok (0, some 0) ∧
    computeDenseReward [["on", "a", "b"]] STrue none (some 0) =
      .ok (0, some 0) := by
  have h : computeDenseReward [["on", "a", "b"]] STrue none none
      = .ok (0, some 0) := by
    simp [computeDenseReward, currentGoalDistance, goalDistances,
      getPredicateProgress, STrue, pyMaxD, bind, Except.bind]
  exact ⟨by simp, h,
    dense_reward_idempotent_second_call _ _ _ _ _ _ (by simp) h⟩

/-- Claim C10: when the success check is true or reward shaping is
disabled, `reward` returns without running the dense computation, so the
previous-distance state is left unchanged and a later dense call behaves
exactly as if the skipped step had not happened. -/
theorem reward_skip_preserves_previous_distance
    (success rewardShaping : Bool) (scale : Option ℝ)
    (goalState : List (List String)) (sceneB sceneC : Scene)
    (st : Option ℝ) (v : ℝ) (st' : Option ℝ)
    (hskip : success = true ∨ rewardShaping = false)
    (h : rewardFn success rewardShaping scale goalState sceneB st
      = .ok (v, st')) :
    st' = st ∧
    computeDenseReward goalState sceneC scale st' =
      computeDenseReward goalState sceneC scale st := by
  have hst : st' = st := by
    rcases hskip with hs | hs
    · subst hs
      simp only [rewardFn, bind, Except.bind, if_true, Except.ok.injEq,
        Prod.mk.injEq] at h
      exact h.2.symm
    · subst hs
      cases success with
      | true =>
        simp only [rewardFn, bind, Except.bind, if_true, Except.ok.injEq,
          Prod.mk.injEq] at h
        exact h.2.symm
      | false =>
        simp only [rewardFn, bind, Except.bind, if_false, Except.ok.injEq,
          Prod.mk.injEq, Bool.false_eq_true, ite_false] at h
        exact h.2.symm
  exact ⟨hst, by rw [hst]⟩

/-- Concrete instantiation of C10's theorem: a successful step leaves the
stored previous distance untouched. -/
theorem reward_skip_preserves_previous_distance_witness :
    rewardFn true false (some 3) [] STrue (some (1/2)) =
      .ok (3, some (1/2)) ∧
    some ((1 : ℝ)/2) = some (1/2) := by
  have h : rewardFn true false (some 3) [] STrue (some (1/2)) =
      .ok (3, some (1/2)) := by
    simp [rewardFn, scaleReward, bind, Except.bind]
  exact ⟨h, (reward_skip_preserves_previous_distance true false (some 3) []
    STrue STrue (some (1/2)) 3 (some (1/2)) (Or.inl rfl) h).1⟩

/-! ### Claim theorem about the open/close monotonicity -/

/-- Claim C8: when the target and opposite range tables are disjoint, the
`open` progress formula is non-decreasing as the first joint position
moves from the opposite extreme toward the target extreme (downward when
the target table lies below the opposite one, upward when it lies
above). -/
theorem open_progress_monotone (t o : List ℝ)
    (q1 q2 tmin tmax omin omax : ℝ)
    (ht1 : pyMin t = .ok tmin) (ht2 : pyMax t = .ok tmax)
    (ho1 : pyMin o = .ok omin) (ho2 : pyMax o = .ok omax)
    (hdir : (tmax < omin ∧ q2 ≤ q1) ∨ (tmin > omax ∧ q1 ≤ q2)) :
    openCloseFormula q1 tmin tmax omin omax ≤
      openCloseFormula q2 tmin tmax omin omax := by
  have htt : tmin ≤ tmax := pyMin_le_pyMax ht1 ht2
  have hoo : omin ≤ omax := pyMin_le_pyMax ho1 ho2
  rcases hdir with ⟨hA, hq⟩ | ⟨hB, hq⟩
  · unfold openCloseFormula
    rw [if_pos hA, if_pos hA]
    dsimp only
    split_ifs with hden
    · refine pyClip_mono ?_
      have hpos : (0 : ℝ) < omax - tmax := by linarith
      exact (div_le_div_iff_of_pos_right hpos).mpr (by linarith)
    · exact le_rfl
  · unfold openCloseFormula
    have hnA : ¬(tmax < omin) := not_lt.mpr (by linarith)
    rw [if_neg hnA, if_neg hnA, if_pos hB, if_pos hB]
    dsimp only
    split_ifs with hden
    · refine pyClip_mono ?_
      have hpos : (0 : ℝ) < tmin - omax := by linarith
      exact (div_le_div_iff_of_pos_right hpos).mpr (by linarith)
    · exact le_rfl

/-- Concrete instantiation of C8's theorem: singleton range tables with
the target below the opposite, the joint moving downward. -/
theorem open_progress_monotone_witness :
    pyMin [(-1 : ℝ)] = .ok (-1) ∧ ((-1 : ℝ) < 0 ∧ (-1 : ℝ) ≤ 0) ∧
    openCloseFormula 0 (-1) (-1) 0 0 ≤ openCloseFormula (-1) (-1) (-1) 0 0 :=
  ⟨rfl, ⟨by norm_num, by norm_num⟩,
    open_progress_monotone [(-1 : ℝ)] [(0 : ℝ)] 0 (-1) (-1) (-1) 0 0
      rfl rfl rfl rfl (Or.inl ⟨by norm_num, by norm_num⟩)⟩

/-! ### The double-scaling divergence (claims C1 and C7) -/

/-- A scene in which the single goal atom `on(a, b)` is unsatisfied and
the two bodies are 0.25 m apart horizontally, so its goal distance is
0.25. -/
noncomputable def SQuarter : Scene :=
  { objectStates := fun n =>
      if n = "b" then ⟨true, (1/4, 0, 0), []⟩ else ⟨true, (0, 0, 0), []⟩
    isArticulated := fun _ => false
    artProps := fun _ => none
    evalPred2 := fun _ _ _ => false
    evalPred1 := fun _ _ => false }

/-- A scene like `SQuarter` but with the bodies 0.5 m apart, so the goal
distance of `on(a, b)` is 0.5. -/
noncomputable def SHalf : Scene :=
  { objectStates := fun n =>
      if n = "b" then ⟨true, (1/2, 0, 0), []⟩ else ⟨true, (0, 0, 0), []⟩
    isArticulated := fun _ => false
    artProps := fun _ => none
    evalPred2 := fun _ _ _ => false
    evalPred1 := fun _ _ => false }

/-- Claim C1 (code bug, evaluated at the failing input): with
`reward_scale = 2.0`, a stored previous distance of 1.0 and a current
goal distance of 0.25, `reward` returns 2.0 because the scale is applied
inside `_compute_dense_reward` (before clipping) and once more in
`reward`; the claimed value, the denoised clipped distance decrease
times the scale, is 1.5. -/
theorem reward_double_scaling_at_failing_input :
    rewardFn false true (some 2) [["on", "a", "b"]] SQuarter (some 1)
      = .ok (2, some (1/4)) ∧
    scaleReward (some 2)
      (if |pyClip ((1 : ℝ) - 1/4) 0 1| < 1/1000 then 0
        else pyClip ((1 : ℝ) - 1/4) 0 1) = 3/2 ∧
    (2 : ℝ) ≠ 3/2 := by
  have hs : Real.sqrt ((((0 : ℝ), (0 : ℝ), (0 : ℝ)).1 -
      ((1 : ℝ)/4, (0 : ℝ), (0 : ℝ)).1) ^ 2 +
      (((0 : ℝ), (0 : ℝ), (0 : ℝ)).2.1 -
      ((1 : ℝ)/4, (0 : ℝ), (0 : ℝ)).2.1) ^ 2) = 1/4 := by
    rw [show ((((0 : ℝ), (0 : ℝ), (0 : ℝ)).1 -
      ((1 : ℝ)/4, (0 : ℝ), (0 : ℝ)).1) ^ 2 +
      (((0 : ℝ), (0 : ℝ), (0 : ℝ)).2.1 -
      ((1 : ℝ)/4, (0 : ℝ), (0 : ℝ)).2.1) ^ 2) = (1/4)^2 by norm_num]
    exact Real.sqrt_sq (by norm_num)
  refine ⟨?_, ?_, by norm_num⟩
  · simp [rewardFn, computeDenseReward, currentGoalDistance, goalDistances,
      getPredicateProgress, SQuarter, horizontalDist, pyLower, hs, pyMaxD,
      scaleReward, pyClip, Except.bind, bind]
    norm_num [abs_lt]
  · unfold pyClip scaleReward
    norm_num [abs_lt]

/-- Claim C7 (code bug, evaluated at the failing input): with
`reward_scale = 2.0`, previous distance 1.0 and current distance 0.5,
`_compute_dense_reward` returns 1.0 (the raw difference is multiplied by
the scale before clipping), while the claimed value, the clipped and
denoised distance decrease, is 0.5. -/
theorem dense_scaled_before_clip_at_failing_input :
    computeDenseReward [["on", "a", "b"]] SHalf (some 2) (some 1)
      = .ok (1, some (1/2)) ∧
    (if |pyClip ((1 : ℝ) - 1/2) 0 1| < 1/1000 then (0 : ℝ)
      else pyClip ((1 : ℝ) - 1/2) 0 1) = 1/2 ∧
    (1 : ℝ) ≠ 1/2 := by
  have hs : Real.sqrt ((((0 : ℝ), (0 : ℝ), (0 : ℝ)).1 -
      ((1 : ℝ)/2, (0 : ℝ), (0 : ℝ)).1) ^ 2 +
      (((0 : ℝ), (0 : ℝ), (0 : ℝ)).2.1 -
      ((1 : ℝ)/2, (0 : ℝ), (0 : ℝ)).2.1) ^ 2) = 1/2 := by
    rw [show ((((0 : ℝ), (0 : ℝ), (0 : ℝ)).1 -
      ((1 : ℝ)/2, (0 : ℝ), (0 : ℝ)).1) ^ 2 +
      (((0 : ℝ), (0 : ℝ), (0 : ℝ)).2.1 -
      ((1 : ℝ)/2, (0 : ℝ), (0 : ℝ)).2.1) ^ 2) = (1/2)^2 by norm_num]
    exact Real.sqrt_sq (by norm_num)
  refine ⟨?_, ?_, by norm_num⟩
  · simp [computeDenseReward, currentGoalDistance, goalDistances,
      getPredicateProgress, SHalf, horizontalDist, pyLower, hs, pyMaxD,
      scaleReward, pyClip, Except.bind, bind]
    norm_num [abs_lt]
  · unfold pyClip
    norm_num [abs_lt]

/-! ### The placement planner (`_add_placement_initializer`, lines 800-967)

The geometric payloads of the samplers (x/y ranges obtained through the
external `rectangle2xyrange` utility, yaw rotations, site half-extents)
do not affect which sampler is registered for which atom, so the sampler
registrations below record the identifying data only: the sampler name,
the placed object, and the reference/site names. -/

/-- A region entry of `parsed_problem["regions"]`; only its `target`
name participates in the classification. -/
structure RegionDef where
  target : String

/-- A sampler appended to `self.placement_initializer`: either the
fixture `MultiRegionRandomSampler` or a movable-object region sampler
obtained from `get_region_samplers(problem_name, category)`. -/
inductive PlacementSamplerReg where
  | multiRegionFixture (samplerName objectName : String)
  | regionSampler (objectName targetCategory : String)

/-- A sampler appended to `self.conditional_placement_initializer`
(`SiteRegionRandomSampler` when `insideRegion = false`,
`InSiteRegionRandomSampler` when `insideRegion = true`), with its
reference object and site names. -/
structure SiteSamplerReg where
  samplerName : String
  objectName : String
  reference : String
  siteName : String
  insideRegion : Bool

/-- An `ObjectBasedSampler` appended to
`self.conditional_placement_on_objects_initializer`, with the reference
object whose resolved pose it reads. -/
structure ObjectSamplerReg where
  samplerName : String
  objectName : String
  reference : String

/-- An entry of `self.object_property_initializers`: an
`OpenCloseSampler`, a `TurnOnOffSampler`, or some other user-supplied
sampler (which `_reset_internal` only warns about). -/
inductive PropertyInit where
  | openClose (name stateType : String) (jointRanges : List ℝ)
  | turnOnOff (name stateType : String) (jointRanges : List ℝ)
  | other (name : String)

/-- The parts of `parsed_problem` read by `_add_placement_initializer`. -/
structure ProblemSpec where
  fixturesMap : List (String × List String)
  objectsMap : List (String × List String)
  regions : List (String × RegionDef)
  initialState : List (List String)
  problemName : String

/-- The dictionaries of the domain object consulted during
classification: the keys of `objects_dict`, `fixtures_dict` and
`object_sites_dict`, the names whose `object_states_dict` entry has a
`set_joint` attribute, and the articulation property tables reachable
through `get_object`. -/
structure BuildCtx where
  objectsDict : List String
  fixturesDict : List String
  objectSites : List String
  statesWithSetJoint : List String
  artProps : String → Option ArticulationProps

/-- Lines 802-808: `mapping_inv[v] = k` for every category `k` and member
`v`, fixtures first, then objects; a later assignment overwrites an
earlier one, hence the reversed-prepend representation whose first match
is the most recent write. -/
def buildMappingInv (fixturesMap objectsMap : List (String × List String)) :
    List (String × String) :=
  let step := fun (d : List (String × String)) (kv : String × List String) =>
    kv.2.foldl (fun d v => (v, kv.1) :: d) d
  objectsMap.foldl step (fixturesMap.foldl step [])

/-- The running state of the classification loop of lines 814-910: the
three deferred lists and the two sampler registries appended to during
the first pass. -/
structure ClassifyAcc where
  onSites : List (List String)
  onObjects : List (List String)
  inRegions : List (List String)
  placementSamplers : List PlacementSamplerReg
  propertyInits : List PropertyInit

/-- Lines 869-889 and 890-910: registration of an `OpenCloseSampler` or
`TurnOnOffSampler` for an `open`/`close`/`turnon`/`turnoff` atom.  The
range-table lookups `obj.object_properties["articulation"][key]` raise
`KeyError` when absent. -/
def registerPropertySampler (ctx : BuildCtx) (acc : ClassifyAcc)
    (stateType objectName : String) (isOpenClose : Bool) :
    Except String ClassifyAcc :=
  if objectName ∈ ctx.statesWithSetJoint then
    match ctx.artProps objectName with
    | none => .error "KeyError: articulation"
    | some artProps =>
      let ranges? :=
        if isOpenClose then
          if stateType = "open" then artProps.openRanges
          else artProps.closeRanges
        else
          if stateType = "turnon" then artProps.turnonRanges
          else artProps.turnoffRanges
      match ranges? with
      | none => .error "KeyError: default joint ranges"
      | some jointRanges =>
        .ok { acc with propertyInits := acc.propertyInits ++
          [if isOpenClose then
              PropertyInit.openClose objectName stateType jointRanges
            else PropertyInit.turnOnOff objectName stateType jointRanges] }
  else .ok acc

/-- One iteration of the classification loop of lines 818-910, with the
`continue`-style control flow of the source made explicit.  Indexing a
too-short atom raises `IndexError` exactly where Python would. -/
def atomStep (prob : ProblemSpec) (ctx : BuildCtx)
    (mappingInv : List (String × String)) (acc : ClassifyAcc)
    (state : List String) : Except String ClassifyAcc :=
  match state with
  | "on" :: objectName :: other :: _ =>
    if other ∈ ctx.objectsDict then
      .ok { acc with onObjects := acc.onObjects ++ [state] }
    else
      match List.lookup other prob.regions with
      | some regionDef =>
        if regionDef.target ∈ ctx.objectsDict ∨
            regionDef.target ∈ ctx.fixturesDict then
          .ok { acc with onSites := acc.onSites ++ [state] }
        else if objectName ∈ ctx.fixturesDict then
          .ok { acc with placementSamplers := acc.placementSamplers ++
            [PlacementSamplerReg.multiRegionFixture
              (objectName ++ "_sampler") objectName] }
        else
          match List.lookup regionDef.target mappingInv with
          | none => .error "KeyError: mapping_inv"
          | some category =>
            if objectName ∈ ctx.objectsDict then
              .ok { acc with placementSamplers := acc.placementSamplers ++
                [PlacementSamplerReg.regionSampler objectName category] }
            else .error "KeyError: objects_dict"
      | none => .ok acc
  | "in" :: _ :: other :: _ =>
    if (List.lookup other prob.regions).isSome then
      .ok { acc with inRegions := acc.inRegions ++ [state] }
    else .ok acc
  | "open" :: objectName :: _ =>
    registerPropertySampler ctx acc "open" objectName true
  | "close" :: objectName :: _ =>
    registerPropertySampler ctx acc "close" objectName true
  | "turnon" :: objectName :: _ =>
    registerPropertySampler ctx acc "turnon" objectName false
  | "turnoff" :: objectName :: _ =>
    registerPropertySampler ctx acc "turnoff" objectName false
  | "on" :: _ => .error "IndexError: state[2]"
  | "in" :: _ => .error "IndexError: state[2]"
  | _ => .ok acc

/-- The classification loop over the whole `initial_state`. -/
def classifyAll (prob : ProblemSpec) (ctx : BuildCtx)
    (mappingInv : List (String × String)) :
    ClassifyAcc → List (List String) → Except String ClassifyAcc
  | acc, [] => .ok acc
  | acc, state :: rest => do
    let acc' ← atomStep prob ctx mappingInv acc state
    classifyAll prob ctx mappingInv acc' rest

/-- The second-pass loops of lines 913-930 and 949-967: one
site-conditioned sampler per deferred `on`/`in` atom, referencing the
region target, after the `object_sites_dict[region_name]` and
`objects_dict[object_name]` lookups (which raise `KeyError` when the
name is unknown). -/
def buildSiteSamplers (prob : ProblemSpec) (ctx : BuildCtx)
    (insideRegion : Bool) : List SiteSamplerReg → List (List String) →
    Except String (List SiteSamplerReg)
  | acc, [] => .ok acc
  | acc, state :: rest =>
    match state with
    | _ :: objectName :: regionName :: _ =>
      match List.lookup regionName prob.regions with
      | none => .error "KeyError: regions"
      | some regionDef =>
        if regionName ∈ ctx.objectSites then
          if objectName ∈ ctx.objectsDict then
            buildSiteSamplers prob ctx insideRegion
              (acc ++ [⟨objectName ++ "_sampler", objectName,
                regionDef.target, regionName, insideRegion⟩]) rest
          else .error "KeyError: objects_dict"
        else .error "KeyError: object_sites_dict"
    | _ => .error "IndexError: state[2]"

/-- The second-pass loop of lines 932-947: one `ObjectBasedSampler` per
deferred `on(object, other_object)` atom, referencing the other
object. -/
def buildObjectSamplers (ctx : BuildCtx) :
    List ObjectSamplerReg → List (List String) →
    Except String (List ObjectSamplerReg)
  | acc, [] => .ok acc
  | acc, state :: rest =>
    match state with
    | _ :: objectName :: otherObjectName :: _ =>
      if objectName ∈ ctx.objectsDict then
        buildObjectSamplers ctx
          (acc ++ [⟨objectName ++ "_sampler", objectName,
            otherObjectName⟩]) rest
      else .error "KeyError: objects_dict"
    | _ => .error "IndexError: state[2]"

/-- The full sampler registries produced by
`_add_placement_initializer`. -/
structure PlacementSetup where
  placementSamplers : List PlacementSamplerReg
  conditionalSamplers : List SiteSamplerReg
  conditionalOnObjectSamplers : List ObjectSamplerReg
  propertyInits : List PropertyInit

/-- `_add_placement_initializer` (lines 800-967): build `mapping_inv`,
classify every initial-state atom in declaration order, then register
the site-conditioned samplers, the object-conditioned samplers and the
in-region samplers in that order. -/
def addPlacementInitializer (prob : ProblemSpec) (ctx : BuildCtx) :
    Except String PlacementSetup := do
  let mappingInv := buildMappingInv prob.fixturesMap prob.objectsMap
  let acc ← classifyAll prob ctx mappingInv ⟨[], [], [], [], []⟩
    prob.initialState
  let condSite ← buildSiteSamplers prob ctx false [] acc.onSites
  let condObj ← buildObjectSamplers ctx [] acc.onObjects
  let condIn ← buildSiteSamplers prob ctx true [] acc.inRegions
  .ok ⟨acc.placementSamplers, condSite ++ condIn, condObj,
    acc.propertyInits⟩

/-! ### The reset procedure (`_reset_internal`, lines 969-1019)

The robosuite samplers themselves are external; `_reset_internal` only
fixes in which order they run and which resolved placements each
consumes.  The procedure is modelled as a trace of events together with
the explicit dataflow between the three composite samplers. -/

/-- The observable events of one `_reset_internal` call, in order:
clearing the previous-distance attribute, one `set_joint` application
per open/close/turnon/turnoff property sampler (or a printed warning for
a sampler of any other kind), the manual `mujoco.mj_step1`, the three
composite placement-sampler invocations, and the final loop writing the
sampled poses into the simulation. -/
inductive ResetEvent where
  | clearPreviousDistance
  | applyJoint (name : String)
  | samplerWarning
  | mjStep1
  | uncondPlacements
  | condSitePlacements
  | condObjectPlacements
  | applyPoses

/-- Lines 983-995: an `OpenCloseSampler` or `TurnOnOffSampler` is
sampled and applied through `set_joint`; any other entry only triggers
the printed warning. -/
def propInitEvent : PropertyInit → ResetEvent
  | .openClose n _ _ => ResetEvent.applyJoint n
  | .turnOnOff n _ _ => ResetEvent.applyJoint n
  | .other _ => ResetEvent.samplerWarning

/-- The event trace of the non-deterministic branch of
`_reset_internal`. -/
def resetTrace (propInits : List PropertyInit) : List ResetEvent :=
  ResetEvent.clearPreviousDistance ::
    (propInits.map propInitEvent ++
      [ResetEvent.mjStep1, ResetEvent.uncondPlacements,
        ResetEvent.condSitePlacements, ResetEvent.condObjectPlacements,
        ResetEvent.applyPoses])

/-- `_reset_internal` (lines 969-1019): clear the previous-distance
attribute, and unless `deterministic_reset` is set, run the property
samplers, `mj_step1`, then
`object_placements = self.placement_initializer.sample()`,
`object_placements = self.conditional_placement_initializer.sample(self.sim, object_placements)`,
`object_placements = self.conditional_placement_on_objects_initializer.sample(object_placements)`,
and apply the resulting placements.  The three composite samplers are
passed in as functions over an abstract placements type. -/
def resetInternal {α : Type} (deterministicReset : Bool)
    (propInits : List PropertyInit) (uncondSample : Unit → α)
    (condSiteSample condObjSample : α → α) (previousDistance : Option ℝ) :
    List ResetEvent × Option ℝ × Option α :=
  let st := resetPreviousDistance previousDistance
  if deterministicReset then
    ([ResetEvent.clearPreviousDistance], st, none)
  else
    let placements := condObjSample (condSiteSample (uncondSample ()))
    (resetTrace propInits, st, some placements)

/-- An event applying a sampled joint value. -/
def isJointEvent (e : ResetEvent) : Prop :=
  ∃ n, e = ResetEvent.applyJoint n

/-- An event running one of the three composite placement samplers. -/
def isPlacementPhase (e : ResetEvent) : Prop :=
  e = ResetEvent.uncondPlacements ∨ e = ResetEvent.condSitePlacements ∨
    e = ResetEvent.condObjectPlacements

theorem propInitEvent_shape {propInits : List PropertyInit}
    {e : ResetEvent} (he : e ∈ propInits.map propInitEvent) :
    (∃ n, e = ResetEvent.applyJoint n) ∨ e = ResetEvent.samplerWarning := by
  rcases List.mem_map.mp he with ⟨pi, _, rfl⟩
  cases pi with
  | openClose n s r => exact Or.inl ⟨n, rfl⟩
  | turnOnOff n s r => exact Or.inl ⟨n, rfl⟩
  | other n => exact Or.inr rfl

theorem resetTrace_length (propInits : List PropertyInit) :
    (resetTrace propInits).length = propInits.length + 6 := by
  simp [resetTrace]

/-- Where each kind of event can sit inside the reset trace. -/
theorem resetTrace_index_facts (propInits : List PropertyInit) (i : ℕ)
    (hi : i < (resetTrace propInits).length) :
    (isJointEvent (resetTrace propInits)[i] → i ≤ propInits.length) ∧
    ((resetTrace propInits)[i] = ResetEvent.uncondPlacements →
      i = propInits.length + 2) ∧
    ((resetTrace propInits)[i] = ResetEvent.condSitePlacements →
      i = propInits.length + 3) ∧
    ((resetTrace propInits)[i] = ResetEvent.condObjectPlacements →
      i = propInits.length + 4) := by
  have hlen := resetTrace_length propInits
  have hmap : (propInits.map propInitEvent).length = propInits.length :=
    List.length_map _ _
  rcases i with _ | k
  · have h0 : (resetTrace propInits)[0] = ResetEvent.clearPreviousDistance :=
      rfl
    rw [h0]
    refine ⟨fun hJ => ?_, by simp, by simp, by simp⟩
    rcases hJ with ⟨n, hn⟩
    exact absurd hn (by simp)
  · have hk5 : k < propInits.length + 5 := by omega
    have hklt : k < (propInits.map propInitEvent ++
        [ResetEvent.mjStep1, ResetEvent.uncondPlacements,
          ResetEvent.condSitePlacements, ResetEvent.condObjectPlacements,
          ResetEvent.applyPoses]).length := by
      simp
      omega
    have hstep : (resetTrace propInits)[k + 1] =
        (propInits.map propInitEvent ++
          [ResetEvent.mjStep1, ResetEvent.uncondPlacements,
            ResetEvent.condSitePlacements, ResetEvent.condObjectPlacements,
            ResetEvent.applyPoses])[k]
          := by
      simp [resetTrace]
    rw [hstep]
    by_cases hk : k < (propInits.map propInitEvent).length
    · rw [List.getElem_append_left hk]
      have he := propInitEvent_shape (List.getElem_mem hk)
      rcases he with ⟨n, hn⟩ | hn <;> rw [hn]
      · exact ⟨fun _ => by omega, by simp, by simp, by simp⟩
      · refine ⟨fun hJ => ?_, by simp, by simp, by simp⟩
        rcases hJ with ⟨m, hm⟩
        exact absurd hm (by simp)
    · push_neg at hk
      rw [List.getElem_append_right hk]
      have hcase : k - (propInits.map propInitEvent).length = 0 ∨
          k - (propInits.map propInitEvent).length = 1 ∨
          k - (propInits.map propInitEvent).length = 2 ∨
          k - (propInits.map propInitEvent).length = 3 ∨
          k - (propInits.map propInitEvent).length = 4 := by omega
      rcases hcase with h | h | h | h | h <;> simp only [h] <;>
        refine ⟨fun hJ => ?_, fun hu => ?_, fun hs => ?_, fun ho => ?_⟩ <;>
        first
        | omega
        | (rcases hJ with ⟨m, hm⟩; exact absurd hm (by simp))
        | (exact absurd hu (by simp))
        | (exact absurd hs (by simp))
        | (exact absurd ho (by simp))

/-- Claim C9: at every (non-deterministic) reset, all joint-sampler
applications happen before any of the three composite placement-sampler
runs; the unconditioned sampler runs before the site/in-region
conditioned one, which runs before the object-conditioned one; and the
object-conditioned sampler consumes the placements already resolved by
the two earlier phases. -/
theorem reset_sampling_order {α : Type} (propInits : List PropertyInit)
    (uncondSample : Unit → α) (condSiteSample condObjSample : α → α)
    (st0 : Option ℝ) (evts : List ResetEvent) (st : Option ℝ)
    (pl : Option α)
    (h : resetInternal false propInits uncondSample condSiteSample
      condObjSample st0 = (evts, st, pl)) :
    (∀ i j, ∀ (hi : i < evts.length) (hj : j < evts.length),
      isJointEvent evts[i] → isPlacementPhase evts[j] → i < j) ∧
    (∀ i j, ∀ (hi : i < evts.length) (hj : j < evts.length),
      evts[i] = ResetEvent.uncondPlacements →
      evts[j] = ResetEvent.condSitePlacements → i < j) ∧
    (∀ i j, ∀ (hi : i < evts.length) (hj : j < evts.length),
      evts[i] = ResetEvent.condSitePlacements →
      evts[j] = ResetEvent.condObjectPlacements → i < j) ∧
    pl = some (condObjSample (condSiteSample (uncondSample ()))) := by
  simp only [resetInternal, if_false, Bool.false_eq_true, ite_false,
    Prod.mk.injEq] at h
  obtain ⟨htr, hst, hpl⟩ := h
  subst htr
  refine ⟨?_, ?_, ?_, hpl.symm⟩
  · intro i j hi hj hJ hP
    have hiB := (resetTrace_index_facts propInits i hi).1 hJ
    rcases hP with hu | hs | ho
    · have := (resetTrace_index_facts propInits j hj).2.1 hu; omega
    · have := (resetTrace_index_facts propInits j hj).2.2.1 hs; omega
    · have := (resetTrace_index_facts propInits j hj).2.2.2 ho; omega
  · intro i j hi hj hu hs
    have h1 := (resetTrace_index_facts propInits i hi).2.1 hu
    have h2 := (resetTrace_index_facts propInits j hj).2.2.1 hs
    omega
  · intro i j hi hj hs ho
    have h1 := (resetTrace_index_facts propInits i hi).2.2.1 hs
    have h2 := (resetTrace_index_facts propInits j hj).2.2.2 ho
    omega

/-- A concrete unconditioned sampler over natural-number placements. -/
def wUncond : Unit → ℕ := fun _ => 1

/-- A concrete site-conditioned sampler over natural-number placements. -/
def wSite : ℕ → ℕ := fun n => n + 1

/-- A concrete object-conditioned sampler over natural-number
placements. -/
def wObj : ℕ → ℕ := fun n => n * 2

/-- Concrete instantiation of C9's theorem. -/
theorem reset_sampling_order_witness :
    resetInternal false [PropertyInit.openClose "microwave" "open" []]
      wUncond wSite wObj (some 3) =
      ([ResetEvent.clearPreviousDistance, ResetEvent.applyJoint "microwave",
        ResetEvent.mjStep1, ResetEvent.uncondPlacements,
        ResetEvent.condSitePlacements, ResetEvent.condObjectPlacements,
        ResetEvent.applyPoses], none, some 4) ∧
    some 4 = some (wObj (wSite (wUncond ()))) := by
  have h : resetInternal false [PropertyInit.openClose "microwave" "open" []]
      wUncond wSite wObj (some 3) =
      ([ResetEvent.clearPreviousDistance, ResetEvent.applyJoint "microwave",
        ResetEvent.mjStep1, ResetEvent.uncondPlacements,
        ResetEvent.condSitePlacements, ResetEvent.condObjectPlacements,
        ResetEvent.applyPoses], none, some 4) := rfl
  exact ⟨h, (reset_sampling_order _ _ _ _ _ _ _ _ h).2.2.2⟩

/-! ### Claim C2: circular `on(obj, other)` placements -/

/-- A parsed problem whose initial state is the circular pair
`on(obj_a, obj_b)`, `on(obj_b, obj_a)`. -/
def cyclicProblem : ProblemSpec :=
  { fixturesMap := []
    objectsMap := [("basket", ["obj_a", "obj_b"])]
    regions := []
    initialState := [["on", "obj_a", "obj_b"], ["on", "obj_b", "obj_a"]]
    problemName := "cyclic_demo" }

/-- The build context in which both `obj_a` and `obj_b` are movable
objects. -/
def cyclicCtx : BuildCtx :=
  { objectsDict := ["obj_a", "obj_b"]
    fixturesDict := []
    objectSites := []
    statesWithSetJoint := []
    artProps := fun _ => none }

/-- Counterexample to claim C2: on the circular pair `on(obj_a, obj_b)`,
`on(obj_b, obj_a)` the planner raises nothing at all — it returns
normally with both object-conditioned samplers registered, each
referencing the other object.  No `UnresolvedReferenceError` (nor any
cycle detection) exists in `_add_placement_initializer`. -/
theorem onObject_cycle_raises_nothing :
    addPlacementInitializer cyclicProblem cyclicCtx =
      .ok ⟨[], [],
        [⟨"obj_a_sampler", "obj_a", "obj_b"⟩,
          ⟨"obj_b_sampler", "obj_b", "obj_a"⟩], []⟩ := rfl

/-- Claim C2 as amended: for any two movable objects `a` and `b`, scene
building with the circular initial state `on(a, b)`, `on(b, a)` silently
registers both object-conditioned samplers (each referencing the other
object) and raises no error. -/
theorem onObject_cycle_registers_both (prob : ProblemSpec) (ctx : BuildCtx)
    (a b : String)
    (hinit : prob.initialState = [["on", a, b], ["on", b, a]])
    (ha : a ∈ ctx.objectsDict) (hb : b ∈ ctx.objectsDict) :
    addPlacementInitializer prob ctx =
      .ok ⟨[], [],
        [⟨a ++ "_sampler", a, b⟩, ⟨b ++ "_sampler", b, a⟩], []⟩ := by
  simp [addPlacementInitializer, hinit, classifyAll, atomStep,
    buildSiteSamplers, buildObjectSamplers, ha, hb, bind, Except.bind]

/-- Concrete instantiation of the amended C2 theorem. -/
theorem onObject_cycle_registers_both_witness :
    (["on", "x", "y"] = ["on", "x", "y"] ∧ "x" ∈ ["x", "y"] ∧
      "y" ∈ ["x", "y"]) ∧
    addPlacementInitializer
      { fixturesMap := [], objectsMap := [], regions := [],
        initialState := [["on", "x", "y"], ["on", "y", "x"]],
        problemName := "w" }
      { objectsDict := ["x", "y"], fixturesDict := [], objectSites := [],
        statesWithSetJoint := [], artProps := fun _ => none } =
      .ok ⟨[], [],
        [⟨"x" ++ "_sampler", "x", "y"⟩, ⟨"y" ++ "_sampler", "y", "x"⟩],
        []⟩ :=
  ⟨⟨rfl, by decide, by decide⟩,
    onObject_cycle_registers_both _ _ "x" "y" rfl (by decide) (by decide)⟩

end Libero
